import Mathlib

/-!
Shallow embedding of the three FastAPI modules of the repository
`automation-HPC-Api-Multi-disciplinary-meta-automation`:

  * `src/agents/multi_agent_workflow.py`
  * `src/api/jules_integration.py`
  * `src/api/gemini_integration.py`

Modelling conventions:

  * The configuration file `config/config.json` is read at the start of every
    handler; we model a successfully read and parsed configuration as a
    `Config` value passed to each handler (missing JSON keys default to
    `false`/absent exactly as `dict.get(key, default)` does, which the
    `Config` record's fields represent directly).
  * Python exceptions are modelled by `PyExn`.  FastAPI's `HTTPException`
    is a subclass of `Exception`, so the ubiquitous pattern
    `except Exception as e: raise HTTPException(500, msg + str(e))`
    catches `HTTPException` raised inside the `try` block as well; this is
    modelled faithfully by `pyTryWrap`.  `str(e)` for an `HTTPException`
    renders as `"{status_code}: {detail}"` (starlette's `__str__`), and for
    a `NameError` as `"name 'x' is not defined"`; both are modelled by
    `pyStrExn`.
  * A handler that returns normally yields HTTP 200 with its payload; an
    uncaught `HTTPException` becomes a response with its status code and
    detail; any other uncaught exception becomes a bare 500.  This is
    `runEndpoint`.
  * `str(uuid.uuid4())` is a freshly generated identifier; handlers that
    use it take the generated identifier as an explicit argument (or, for
    uniqueness statements, the identifiers are drawn from an injective
    supply `Nat → String`).
  * `await asyncio.sleep(k)` is pure delay; the per-phase delays are
    recorded by `phase_sleep_seconds`.
  * Numeric literals such as `0.92` and `9.2` are only ever copied, never
    computed with, so they are modelled as rationals.
-/

/-- Python exceptions that can arise in the modelled handlers. -/
inductive PyExn where
  | httpException (status : Nat) (detail : String)
  | nameError (nm : String)
deriving DecidableEq

/-- A single-quote character, used to render Python NameError messages. -/
def sqc : String := String.mk [Char.ofNat 39]

/-- Python str(True) / str(False). -/
def pyBool : Bool → String
  | true => "True"
  | false => "False"

/-- Python str(e) for the modelled exceptions: starlette's HTTPException
renders as "status: detail", NameError as "name ... is not defined". -/
def pyStrExn : PyExn → String
  | .httpException status detail => toString status ++ ": " ++ detail
  | .nameError nm => "name " ++ sqc ++ nm ++ sqc ++ " is not defined"

/-- The HTTP outcome of a request: `ok` is a 200 response carrying the
handler's payload, `error s d` a JSON error response with status `s` and
detail `d`. -/
inductive HttpResult (α : Type) where
  | ok (value : α)
  | error (status : Nat) (detail : String)
deriving DecidableEq

/-- FastAPI endpoint boundary: a normal return is HTTP 200; an uncaught
HTTPException becomes a response with its status and detail; any other
uncaught exception becomes a bare 500. -/
def runEndpoint {α : Type} : Except PyExn α → HttpResult α
  | .ok a => .ok a
  | .error (.httpException s d) => .error s d
  | .error (.nameError _) => .error 500 "Internal Server Error"

/-- The `try: ... except Exception as e: raise HTTPException(500, msg + str(e))`
pattern wrapped around every handler body.  Because FastAPI's HTTPException
subclasses Exception, the except clause also catches HTTPExceptions raised
inside the try block and re-raises them as a 500. -/
def pyTryWrap {α : Type} (msg : String) : Except PyExn α → Except PyExn α
  | .ok a => .ok a
  | .error e => .error (.httpException 500 (msg ++ pyStrExn e))

/-- `cross_agent` section of config/config.json. -/
structure CrossAgentConfig where
  enabled : Bool := false
deriving DecidableEq

/-- `jules_agent` section of config/config.json. -/
structure JulesAgentConfig where
  enabled : Bool := false
  multi_agent_mode : Bool := false
  github_integration : Bool := false
deriving DecidableEq

/-- `gemini_agent` section of config/config.json; optional fields model
keys that may be absent (`dict.get` with a default at each use site). -/
structure GeminiAgentConfig where
  enabled : Bool := false
  model : Option String := none
  pr_review_enabled : Bool := false
  code_analysis_enabled : Bool := false
  api_key_env : Option String := none
deriving DecidableEq

/-- The parsed config/config.json. -/
structure Config where
  cross_agent : CrossAgentConfig := {}
  jules_agent : JulesAgentConfig := {}
  gemini_agent : GeminiAgentConfig := {}
deriving DecidableEq

/-- Does `needle` occur at the very start of `hay`? (on character lists) -/
def segStartsWith : List Char → List Char → Bool
  | [], _ => true
  | _ :: _, [] => false
  | a :: as, b :: bs => (a == b) && segStartsWith as bs

/-- Does `needle` occur anywhere inside `hay`? (on character lists) -/
def segOccurs (needle : List Char) : List Char → Bool
  | [] => segStartsWith needle []
  | c :: cs => segStartsWith needle (c :: cs) || segOccurs needle cs

/-- Substring test on strings: does `pat` occur inside `s`? -/
def strContains (s pat : String) : Bool :=
  segOccurs pat.data s.data


/-- Request body of POST /multi-agent/start-collaboration
(`CollaborationRequest` in multi_agent_workflow.py). -/
structure CollaborationRequest where
  task_description : String
  priority : String := "medium"
  workflow_type : String := "full_collaboration"
  github_repo_url : Option String := none
  specific_requirements : List String := []
deriving DecidableEq

/-- Response model of POST /multi-agent/start-collaboration
(`CollaborationStatus` in multi_agent_workflow.py); `progress` is a
Dict[str, Any] whose values are all strings here. -/
structure CollaborationStatus where
  collaboration_id : String
  status : String
  current_phase : String
  participants : List String
  progress : List (String × String)
  estimated_completion : Option String := none
deriving DecidableEq

/-- `task_analysis` block of the simulated Gemini analysis. -/
structure TaskAnalysis where
  complexity : String
  estimated_effort : String
  key_components : List String
  security_considerations : List String
  performance_notes : List String
deriving DecidableEq

/-- `requirements_analysis` block of the simulated Gemini analysis. -/
structure RequirementsAnalysis where
  functional_requirements : List String
  non_functional_requirements : List String
  constraints : List String
deriving DecidableEq

/-- `implementation_guidance` block of the simulated Gemini analysis. -/
structure ImplementationGuidance where
  recommended_patterns : List String
  suggested_libraries : List String
  architecture_notes : String
deriving DecidableEq

/-- `quality_metrics` block of the simulated Gemini analysis. -/
structure QualityMetrics where
  confidence : Rat
  completeness : Rat
  complexity_score : Rat
deriving DecidableEq

/-- Result dictionary of `simulate_gemini_analysis`. -/
structure GeminiAnalysis where
  task_analysis : TaskAnalysis
  requirements_analysis : RequirementsAnalysis
  implementation_guidance : ImplementationGuidance
  quality_metrics : QualityMetrics
deriving DecidableEq

/-- `implementation_plan` block of the simulated Jules implementation. -/
structure ImplementationPlan where
  phases : List String
  estimated_duration : String
  branch_name : String
deriving DecidableEq

/-- `code_generation` block of the simulated Jules implementation. -/
structure CodeGeneration where
  files_created : List String
  files_modified : List String
  lines_of_code : Nat
  test_coverage : String
deriving DecidableEq

/-- `implementation_details` block of the simulated Jules implementation. -/
structure ImplementationDetails where
  follows_gemini_guidance : Bool
  security_implemented : List String
  performance_optimizations : List String
  error_handling : String
deriving DecidableEq

/-- `testing_results` block of the simulated Jules implementation. -/
structure TestingResults where
  unit_tests : String
  integration_tests : String
  code_quality : String
  security_scan : String
deriving DecidableEq

/-- `github_integration` block of the simulated Jules implementation. -/
structure GithubIntegrationInfo where
  repository : String
  branch_created : Bool
  commits : Nat
  pr_ready : Bool
deriving DecidableEq

/-- Result dictionary of `simulate_jules_implementation`. -/
structure JulesImplementation where
  implementation_plan : ImplementationPlan
  code_generation : CodeGeneration
  implementation_details : ImplementationDetails
  testing_results : TestingResults
  github_integration : GithubIntegrationInfo
deriving DecidableEq

/-- `gemini_validation` block of the cross-validation result. -/
structure GeminiValidation where
  implementation_follows_analysis : Bool
  security_requirements_met : Bool
  performance_guidelines_followed : Bool
  additional_suggestions : List String
deriving DecidableEq

/-- `jules_validation` block of the cross-validation result. -/
structure JulesValidation where
  gemini_analysis_accuracy : Bool
  requirements_completeness : Bool
  implementation_feasibility : Bool
  quality_assessment : String
deriving DecidableEq

/-- `consensus` block of the cross-validation result. -/
structure Consensus where
  ready_for_deployment : Bool
  overall_quality_score : Rat
  collaboration_effectiveness : String
deriving DecidableEq

/-- Result dictionary of `cross_validate_solution`. -/
structure ValidationResults where
  validation_status : String
  alignment_score : Rat
  gemini_validation : GeminiValidation
  jules_validation : JulesValidation
  consensus : Consensus
deriving DecidableEq

/-- `collaboration_summary` block of the finalization result. -/
structure CollaborationSummary where
  id : String
  status : String
  duration : String
  quality_score : Rat
  success_factors : List String
deriving DecidableEq

/-- `deliverables` block of the finalization result. -/
structure Deliverables where
  analysis_report : String
  implementation : String
  validation_report : String
  deployment_package : String
deriving DecidableEq

/-- `knowledge_transfer` block of the finalization result. -/
structure KnowledgeTransfer where
  gemini_insights : ImplementationGuidance
  jules_learnings : ImplementationDetails
  collaboration_patterns : String
deriving DecidableEq

/-- Result dictionary of `finalize_collaboration`. -/
structure FinalResults where
  collaboration_summary : CollaborationSummary
  deliverables : Deliverables
  knowledge_transfer : KnowledgeTransfer
deriving DecidableEq

/-- The four phases of the collaboration pipeline. -/
inductive WorkflowPhase where
  | gemini_analysis
  | jules_implementation
  | cross_validation
  | finalization
deriving DecidableEq

/-- Seconds of `await asyncio.sleep(...)` at the start of each simulated
phase: 2 in `simulate_gemini_analysis`, 3 in `simulate_jules_implementation`,
1 in `cross_validate_solution`, and none in `finalize_collaboration`. -/
def phase_sleep_seconds : WorkflowPhase → Nat
  | .gemini_analysis => 2
  | .jules_implementation => 3
  | .cross_validation => 1
  | .finalization => 0

/-- `simulate_gemini_analysis(task_description, requirements)` from
multi_agent_workflow.py: after a 2 s simulated delay, returns a literal
analysis dictionary; only `functional_requirements` depends on the input
(the passed requirements list extended by two fixed items). -/
def simulate_gemini_analysis (task_description : String) (requirements : List String) :
    GeminiAnalysis :=
  { task_analysis :=
      { complexity := "medium"
        estimated_effort := "2-3 hours"
        key_components := ["API endpoint", "data validation", "error handling"]
        security_considerations := ["Input validation", "Authentication required"]
        performance_notes := ["Consider caching", "Database optimization needed"] }
    requirements_analysis :=
      { functional_requirements := requirements ++ ["User authentication", "Data persistence"]
        non_functional_requirements := ["Performance", "Security", "Scalability"]
        constraints := ["Must use FastAPI", "Python 3.8+ compatible"] }
    implementation_guidance :=
      { recommended_patterns := ["Repository pattern", "Dependency injection"]
        suggested_libraries := ["pydantic", "sqlalchemy", "pytest"]
        architecture_notes := "Microservices compatible design" }
    quality_metrics :=
      { confidence := 0.92
        completeness := 0.88
        complexity_score := 6.5 } }

/-- Python truthiness of `github_repo_url or "local_development"`: both
`None` and the empty string fall back to the default. -/
def pyOrDefault (s : Option String) (dflt : String) : String :=
  match s with
  | none => dflt
  | some v => if v = "" then dflt else v

/-- `simulate_jules_implementation(task_description, gemini_analysis,
github_repo_url)` from multi_agent_workflow.py: after a 3 s simulated
delay, returns a literal implementation dictionary whose
`security_implemented` field copies the analysis result's
`task_analysis.security_considerations`. -/
def simulate_jules_implementation (task_description : String)
    (gemini_analysis : GeminiAnalysis) (github_repo_url : Option String) :
    JulesImplementation :=
  { implementation_plan :=
      { phases := ["Setup", "Core implementation", "Testing", "Documentation"]
        estimated_duration := "25 minutes"
        branch_name := "feature/multi-agent-collaboration-implementation" }
    code_generation :=
      { files_created := ["src/api/new_endpoint.py", "tests/test_new_endpoint.py"]
        files_modified := ["src/main.py", "requirements.txt"]
        lines_of_code := 150
        test_coverage := "85%" }
    implementation_details :=
      { follows_gemini_guidance := true
        security_implemented := gemini_analysis.task_analysis.security_considerations
        performance_optimizations := ["Async operations", "Database connection pooling"]
        error_handling := "Comprehensive exception handling added" }
    testing_results :=
      { unit_tests := "Passed (12/12)"
        integration_tests := "Passed (5/5)"
        code_quality := "A+"
        security_scan := "No issues found" }
    github_integration :=
      { repository := pyOrDefault github_repo_url "local_development"
        branch_created := true
        commits := 3
        pr_ready := true } }

/-- `cross_validate_solution(gemini_analysis, jules_implementation)` from
multi_agent_workflow.py: after a 1 s simulated delay, returns a literal
validation dictionary (independent of both arguments). -/
def cross_validate_solution (gemini_analysis : GeminiAnalysis)
    (jules_implementation : JulesImplementation) : ValidationResults :=
  { validation_status := "passed"
    alignment_score := 0.94
    gemini_validation :=
      { implementation_follows_analysis := true
        security_requirements_met := true
        performance_guidelines_followed := true
        additional_suggestions := ["Consider adding logging", "Add API versioning"] }
    jules_validation :=
      { gemini_analysis_accuracy := true
        requirements_completeness := true
        implementation_feasibility := true
        quality_assessment := "High quality implementation" }
    consensus :=
      { ready_for_deployment := true
        overall_quality_score := 9.2
        collaboration_effectiveness := "Excellent" } }

/-- `finalize_collaboration(collaboration_id, gemini_analysis,
jules_implementation, validation_results)` from multi_agent_workflow.py:
no simulated delay; assembles the final summary, copying the consensus
quality score and extracting the knowledge-transfer payload from the
analysis guidance and the implementation details. -/
def finalize_collaboration (collaboration_id : String)
    (gemini_analysis : GeminiAnalysis) (jules_implementation : JulesImplementation)
    (validation_results : ValidationResults) : FinalResults :=
  { collaboration_summary :=
      { id := collaboration_id
        status := "completed"
        duration := "6 minutes"
        quality_score := validation_results.consensus.overall_quality_score
        success_factors :=
          ["Clear requirements analysis by Gemini",
           "Efficient implementation by Jules",
           "Strong cross-validation process"] }
    deliverables :=
      { analysis_report := "Complete requirements and security analysis"
        implementation := "Fully tested code with documentation"
        validation_report := "Cross-agent quality validation"
        deployment_package := "Ready for production deployment" }
    knowledge_transfer :=
      { gemini_insights := gemini_analysis.implementation_guidance
        jules_learnings := jules_implementation.implementation_details
        collaboration_patterns := "Established for future use" } }

/-- One line printed by the pipeline: the bracketed collaboration id
followed by the message. -/
def workflow_log_line (collaboration_id msg : String) : String :=
  "[" ++ collaboration_id ++ "] " ++ msg

/-- The `try` block of `execute_collaboration_workflow`, generalised over
the four phase computations so that a failure of any phase can be
expressed: runs the phases strictly in sequence, returning the lines
printed so far and the first uncaught exception, if any.  The successful
final result is bound but never used or stored, exactly as in the source. -/
def collaboration_workflow_body (collaboration_id : String)
    (phase1 : Except PyExn GeminiAnalysis)
    (phase2 : GeminiAnalysis → Except PyExn JulesImplementation)
    (phase3 : GeminiAnalysis → JulesImplementation → Except PyExn ValidationResults)
    (phase4 : GeminiAnalysis → JulesImplementation → ValidationResults → Except PyExn FinalResults) :
    List String × Option PyExn :=
  let l1 := workflow_log_line collaboration_id "Phase 1: Starting Gemini analysis..."
  match phase1 with
  | .error e => ([l1], some e)
  | .ok gemini_analysis =>
    let l2 := workflow_log_line collaboration_id "Phase 2: Starting Jules implementation..."
    match phase2 gemini_analysis with
    | .error e => ([l1, l2], some e)
    | .ok jules_implementation =>
      let l3 := workflow_log_line collaboration_id "Phase 3: Cross-validation..."
      match phase3 gemini_analysis jules_implementation with
      | .error e => ([l1, l2, l3], some e)
      | .ok validation_results =>
        let l4 := workflow_log_line collaboration_id "Phase 4: Finalizing results..."
        match phase4 gemini_analysis jules_implementation validation_results with
        | .error e => ([l1, l2, l3, l4], some e)
        | .ok _final_results =>
          ([l1, l2, l3, l4,
            workflow_log_line collaboration_id "Collaboration completed successfully!"], none)

/-- `execute_collaboration_workflow` generalised over the phase
computations: the whole `try` block is wrapped in
`except Exception as e: print(...)`, so any phase exception is caught at
the top level and merely appended to the printed log.  The function
returns only its printed log; nothing is stored anywhere. -/
def execute_collaboration_workflow_run (collaboration_id : String)
    (phase1 : Except PyExn GeminiAnalysis)
    (phase2 : GeminiAnalysis → Except PyExn JulesImplementation)
    (phase3 : GeminiAnalysis → JulesImplementation → Except PyExn ValidationResults)
    (phase4 : GeminiAnalysis → JulesImplementation → ValidationResults → Except PyExn FinalResults) :
    List String :=
  match collaboration_workflow_body collaboration_id phase1 phase2 phase3 phase4 with
  | (log, none) => log
  | (log, some e) =>
      log ++ [workflow_log_line collaboration_id ("Collaboration error: " ++ pyStrExn e)]

/-- `execute_collaboration_workflow(collaboration_id, task_description,
workflow_type, github_repo_url, requirements)` from
multi_agent_workflow.py with its actual simulated phases.  The
`workflow_type` parameter is accepted but never used in the body. -/
def execute_collaboration_workflow (collaboration_id task_description workflow_type : String)
    (github_repo_url : Option String) (requirements : List String) : List String :=
  execute_collaboration_workflow_run collaboration_id
    (.ok (simulate_gemini_analysis task_description requirements))
    (fun gemini_analysis =>
      .ok (simulate_jules_implementation task_description gemini_analysis github_repo_url))
    (fun gemini_analysis jules_implementation =>
      .ok (cross_validate_solution gemini_analysis jules_implementation))
    (fun gemini_analysis jules_implementation validation_results =>
      .ok (finalize_collaboration collaboration_id gemini_analysis jules_implementation
        validation_results))

/-- The `try` block of POST /multi-agent/start-collaboration: checks the
cross-agent flag, then both agent flags, raising HTTPException(503) when a
check fails; on success builds the initial `CollaborationStatus` response
(the `collaboration_data` dictionary constructed in the source is dead —
never returned or stored — and the background task is modelled separately
by `execute_collaboration_workflow`).  `collaboration_id` is the freshly
generated `str(uuid.uuid4())`. -/
def start_collaboration_body (config : Config) (request : CollaborationRequest)
    (collaboration_id : String) : Except PyExn CollaborationStatus :=
  if !config.cross_agent.enabled then
    .error (.httpException 503 "Multi-agent collaboration not enabled")
  else
    let jules_enabled := config.jules_agent.enabled
    let gemini_enabled := config.gemini_agent.enabled
    if !(jules_enabled && gemini_enabled) then
      .error (.httpException 503
        ("Both agents must be enabled. Jules: " ++ pyBool jules_enabled ++
         ", Gemini: " ++ pyBool gemini_enabled))
    else
      .ok { collaboration_id := collaboration_id
            status := "initiated"
            current_phase := "gemini_analysis"
            participants := ["gemini-coding-agent", "jules-agent"]
            progress := [("phase_1", "Starting Gemini analysis"), ("overall_progress", "5%")]
            estimated_completion := some "5-10 minutes" }

/-- POST /multi-agent/start-collaboration
(`start_multi_agent_collaboration` in multi_agent_workflow.py), with its
surrounding `except Exception` re-raise as HTTPException(500). -/
def start_multi_agent_collaboration (config : Config) (request : CollaborationRequest)
    (collaboration_id : String) : HttpResult CollaborationStatus :=
  runEndpoint (pyTryWrap "Collaboration initiation error: "
    (start_collaboration_body config request collaboration_id))

/-- The collaboration id carried by a successful start-collaboration
response, if any. -/
def response_collaboration_id : HttpResult CollaborationStatus → Option String
  | .ok s => some s.collaboration_id
  | .error _ _ => none

/-- `progress` dictionary of the GET /multi-agent/status/{id} payload. -/
structure CollabStatusProgress where
  gemini_analysis : String
  jules_implementation : String
  cross_validation : String
  finalization : String
  overall_progress : String
deriving DecidableEq

/-- Payload of GET /multi-agent/status/{id}. -/
structure CollabStatusPayload where
  collaboration_id : String
  status : String
  current_phase : String
  progress : CollabStatusProgress
  estimated_completion : String
deriving DecidableEq

/-- GET /multi-agent/status/{collaboration_id}
(`get_collaboration_status` in multi_agent_workflow.py): returns a fixed
mock payload for every identifier; the identifier is only echoed back and
never looked up anywhere. -/
def get_collaboration_status (collaboration_id : String) : HttpResult CollabStatusPayload :=
  .ok { collaboration_id := collaboration_id
        status := "completed"
        current_phase := "finalization"
        progress :=
          { gemini_analysis := "completed"
            jules_implementation := "completed"
            cross_validation := "completed"
            finalization := "in_progress"
            overall_progress := "90%" }
        estimated_completion := "1 minute remaining" }

/-- What a client polling GET /multi-agent/status/{id} observes after the
background pipeline has run: the pipeline's only output is its printed
log, which is discarded (the source stores nothing), so the status
response is computed from the queried identifier alone. -/
def status_after_pipeline (collaboration_id : String)
    (phase1 : Except PyExn GeminiAnalysis)
    (phase2 : GeminiAnalysis → Except PyExn JulesImplementation)
    (phase3 : GeminiAnalysis → JulesImplementation → Except PyExn ValidationResults)
    (phase4 : GeminiAnalysis → JulesImplementation → ValidationResults → Except PyExn FinalResults)
    (queried_id : String) : HttpResult CollabStatusPayload :=
  let _log := execute_collaboration_workflow_run collaboration_id phase1 phase2 phase3 phase4
  get_collaboration_status queried_id

/-- `available_agents` block of the multi-agent capabilities payload. -/
structure AvailableAgents where
  jules : Bool
  gemini : Bool
deriving DecidableEq

/-- `quality_metrics` block of the multi-agent capabilities payload. -/
structure MultiAgentQualityMetrics where
  average_collaboration_time : String
  success_rate : String
  quality_score_average : Rat
deriving DecidableEq

/-- Payload of GET /multi-agent/capabilities. -/
structure MultiAgentCapabilities where
  system_status : String
  cross_agent_enabled : Bool
  available_agents : AvailableAgents
  collaboration_workflows : List String
  supported_features : List String
  quality_metrics : MultiAgentQualityMetrics
deriving DecidableEq

/-- GET /multi-agent/capabilities (`get_multi_agent_capabilities` in
multi_agent_workflow.py): a literal payload whose only non-constant
fields are the three enabled flags read from the configuration. -/
def get_multi_agent_capabilities (config : Config) : HttpResult MultiAgentCapabilities :=
  runEndpoint (pyTryWrap "Error getting capabilities: "
    (.ok { system_status := "operational"
           cross_agent_enabled := config.cross_agent.enabled
           available_agents :=
             { jules := config.jules_agent.enabled
               gemini := config.gemini_agent.enabled }
           collaboration_workflows :=
             ["analysis_only", "implementation_only", "full_collaboration"]
           supported_features :=
             ["Requirements analysis", "Code implementation", "Security review",
              "Performance optimization", "Cross-validation", "GitHub integration",
              "Automated testing"]
           quality_metrics :=
             { average_collaboration_time := "5-10 minutes"
               success_rate := "95%"
               quality_score_average := 8.7 } }))

/-- `workflow` dictionary of the POST /jules/collaborate success payload
(documented four-step workflow, never actually reached). -/
structure JulesWorkflowSteps where
  step_1 : String
  step_2 : String
  step_3 : String
  step_4 : String
deriving DecidableEq

/-- Success payload of POST /jules/collaborate. -/
structure JulesCollaborationPayload where
  collaboration_id : String
  status : String
  participants : List String
  task : String
  workflow : JulesWorkflowSteps
deriving DecidableEq

/-- POST /jules/collaborate (`request_collaboration` in
jules_integration.py).  After the cross-agent gate passes, line 129
evaluates `str(uuid.uuid4())`, but jules_integration.py imports `uuid`
only inside `process_jules_task` (a function-local import), so the
module-level name `uuid` is undefined and a NameError is raised before
any payload is built; the blanket `except Exception` then re-raises it as
HTTPException(500).  When the gate fails, the HTTPException(503) raised
inside the `try` block is likewise caught and re-raised as 500. -/
def request_collaboration (config : Config) (task_description : String)
    (collaboration_type : String) : HttpResult JulesCollaborationPayload :=
  runEndpoint (pyTryWrap "Collaboration error: "
    (if !config.cross_agent.enabled then
      .error (.httpException 503 "Cross-agent collaboration not enabled")
    else
      .error (.nameError "uuid")))

/-- `get_gemini_config()` from gemini_integration.py: raises
HTTPException(503) when the gemini agent is disabled, but its own
`except Exception` catches that and re-raises HTTPException(500,
"Configuration error: 503: ..."). -/
def get_gemini_config (config : Config) : Except PyExn GeminiAgentConfig :=
  pyTryWrap "Configuration error: "
    (if !config.gemini_agent.enabled then
      .error (.httpException 503 "Gemini agent not enabled")
    else
      .ok config.gemini_agent)

/-- Request body of POST /gemini/analyze (`GeminiAnalysisRequest`). -/
structure GeminiAnalysisRequest where
  code : String
  task : String
  analysis_type : String := "general"
  context : Option String := none
deriving DecidableEq

/-- `shared_context` block of the analyze response's collaboration data. -/
structure SharedContext where
  analysis_type : String
  task_description : String
  recommendations : List String
deriving DecidableEq

/-- `collaboration_data` block of the analyze response. -/
structure CollaborationData where
  jules_integration : Bool
  shared_context : SharedContext
deriving DecidableEq

/-- Response model of POST /gemini/analyze (`GeminiResponse`). -/
structure GeminiResponse where
  analysis : String
  status : String
  confidence_score : Option Rat := none
  suggestions : List String := []
  collaboration_data : Option CollaborationData := none
deriving DecidableEq

/-- The `analysis_prompts` dictionary lookup plus the optional context
suffix from `analyze_code_with_gemini`; `dict.get(key, general)` falls
back to the general prompt for unknown analysis types.  The prompt is
computed but has no influence on the mocked response. -/
def analysis_prompt (request : GeminiAnalysisRequest) : String :=
  let base :=
    if request.analysis_type = "general" then
      "Analyze this code for overall quality and suggest improvements: " ++ request.code
    else if request.analysis_type = "security" then
      "Perform a security analysis of this code and identify vulnerabilities: " ++ request.code
    else if request.analysis_type = "performance" then
      "Analyze this code for performance issues and optimization opportunities: " ++ request.code
    else if request.analysis_type = "style" then
      "Review this code for style consistency and best practices: " ++ request.code
    else
      "Analyze this code for overall quality and suggest improvements: " ++ request.code
  match request.context with
  | none => base
  | some c => base ++ "\n\nAdditional context: " ++ c

/-- The fixed suggestions list of the mocked analyze response. -/
def gemini_suggestions : List String :=
  ["Consider adding type hints for better code clarity",
   "Implement error handling for edge cases",
   "Add comprehensive unit tests",
   "Consider performance optimizations"]

/-- The successful payload of POST /gemini/analyze: the mock analysis
string mentions the analysis type and the task, the suggestions list is
fixed, and collaboration data is attached only when cross-agent mode is
enabled. -/
def gemini_analyze_response (config : Config) (request : GeminiAnalysisRequest) :
    GeminiResponse :=
  { analysis :=
      "Gemini analysis for " ++ request.analysis_type ++ ": The code shows " ++
        request.task ++
        ". Key findings include structure improvements and optimization opportunities."
    status := "completed"
    confidence_score := some 0.85
    suggestions := gemini_suggestions
    collaboration_data :=
      if config.cross_agent.enabled then
        some { jules_integration := true
               shared_context :=
                 { analysis_type := request.analysis_type
                   task_description := request.task
                   recommendations := gemini_suggestions.take 2 } }
      else none }

/-- POST /gemini/analyze (`analyze_code_with_gemini` in
gemini_integration.py): consults the configuration gate, computes the
(unused) prompt, and returns the mocked response; wrapped in the usual
`except Exception` re-raise as HTTPException(500). -/
def analyze_code_with_gemini (config : Config) (request : GeminiAnalysisRequest) :
    HttpResult GeminiResponse :=
  runEndpoint (pyTryWrap "Gemini analysis error: "
    (match get_gemini_config config with
     | .error e => .error e
     | .ok _gemini_config =>
       let _prompt := analysis_prompt request
       .ok (gemini_analyze_response config request)))

/-- Payload of GET /gemini/capabilities. -/
structure GeminiCapabilities where
  agent_type : String
  enabled : Bool
  model : String
  pr_review_enabled : Bool
  code_analysis_enabled : Bool
  capabilities : List String
  analysis_types : List String
  supported_languages : List String
  integration_status : String
deriving DecidableEq

/-- GET /gemini/capabilities (`get_gemini_capabilities` in
gemini_integration.py): consults the configuration gate, then returns a
literal payload whose non-constant fields come from the gemini section of
the configuration. -/
def get_gemini_capabilities (config : Config) : HttpResult GeminiCapabilities :=
  runEndpoint (pyTryWrap "Error getting capabilities: "
    (match get_gemini_config config with
     | .error e => .error e
     | .ok gemini_config =>
       .ok { agent_type := "Gemini Coding Agent"
             enabled := gemini_config.enabled
             model := gemini_config.model.getD "gemini-pro"
             pr_review_enabled := gemini_config.pr_review_enabled
             code_analysis_enabled := gemini_config.code_analysis_enabled
             capabilities :=
               ["Code Quality Analysis", "Security Vulnerability Detection",
                "Performance Optimization Suggestions",
                "Code Style and Best Practices Review",
                "Pull Request Review and Scoring", "Cross-Agent Collaboration"]
             analysis_types := ["general", "security", "performance", "style"]
             supported_languages :=
               ["Python", "JavaScript", "TypeScript", "Java", "C++", "Go", "Rust", "C#"]
             integration_status := "Active" }))

/-- A concrete injective supply of fresh identifiers, standing in for
repeated draws of `str(uuid.uuid4())` (distinct draws yield distinct,
non-empty strings). -/
def sample_id_supply (k : Nat) : String :=
  String.mk (List.replicate (k + 1) (Char.ofNat 120))

theorem string_data_append (s t : String) : (s ++ t).data = s.data ++ t.data := rfl

theorem segStartsWith_nil (hay : List Char) : segStartsWith [] hay = true := by
  cases hay <;> rfl

theorem segOccurs_append_right (p t : List Char) :
    ∀ s : List Char, segOccurs p t = true → segOccurs p (s ++ t) = true := by
  intro s
  induction s with
  | nil => intro h; simpa using h
  | cons c cs ih =>
    intro h
    have := ih h
    simp [segOccurs, this]

theorem segStartsWith_append (p : List Char) :
    ∀ (h t : List Char), segStartsWith p h = true → segStartsWith p (h ++ t) = true := by
  induction p with
  | nil => intro h t _; exact segStartsWith_nil _
  | cons a as ih =>
    intro h t hp
    cases h with
    | nil => simp [segStartsWith] at hp
    | cons b bs =>
      simp only [segStartsWith, Bool.and_eq_true] at hp
      simp only [List.cons_append, segStartsWith, Bool.and_eq_true]
      exact ⟨hp.1, ih bs t hp.2⟩

theorem segOccurs_append_left (p : List Char) :
    ∀ (h t : List Char), segOccurs p h = true → segOccurs p (h ++ t) = true := by
  intro h t
  induction h with
  | nil =>
    intro hp
    simp only [segOccurs] at hp
    have : p = [] := by
      cases p with
      | nil => rfl
      | cons a as => simp [segStartsWith] at hp
    subst this
    cases t with
    | nil => simp [segOccurs, segStartsWith]
    | cons c cs => simp [segOccurs, segStartsWith_nil]
  | cons c cs ih =>
    intro hp
    simp only [segOccurs, Bool.or_eq_true] at hp
    rcases hp with hp | hp
    · simp only [List.cons_append, segOccurs, Bool.or_eq_true]
      exact Or.inl (segStartsWith_append p (c :: cs) t hp)
    · simp only [List.cons_append, segOccurs, Bool.or_eq_true]
      exact Or.inr (ih hp)

theorem strContains_append_left (s t pat : String)
    (h : strContains s pat = true) : strContains (s ++ t) pat = true := by
  unfold strContains at h ⊢
  rw [string_data_append]
  exact segOccurs_append_left pat.data s.data t.data h

theorem strContains_append_right (s t pat : String)
    (h : strContains t pat = true) : strContains (s ++ t) pat = true := by
  unfold strContains at h ⊢
  rw [string_data_append]
  exact segOccurs_append_right pat.data t.data s.data h

theorem sample_id_supply_injective : Function.Injective sample_id_supply := by
  intro a b hab
  have h := congrArg (fun s => s.data.length) hab
  simp only [sample_id_supply, List.length_replicate] at h
  omega

theorem sample_id_supply_ne_empty (k : Nat) : sample_id_supply k ≠ "" := by
  intro h
  have hempty : ("" : String).data = [] := rfl
  have hlen := congrArg (fun s => s.data.length) h
  simp only [sample_id_supply, List.length_replicate, hempty, List.length_nil] at hlen
  omega

/-- C1: the claim says that starting a collaboration with either agent
disabled (cross-agent mode enabled) yields HTTP 503 with both per-agent
flags in the detail.  The handler does raise HTTPException(503, "Both
agents must be enabled. Jules: ..., Gemini: ...") — but its own blanket
`except Exception` catches that HTTPException (a subclass of Exception)
and re-raises it as a 500, so the observed response at this failing
input is HTTP 500; the two flags survive only inside the wrapped
detail text. -/
theorem c1_disabled_agent_start_returns_500 :
    start_multi_agent_collaboration
      { cross_agent := { enabled := true }
        jules_agent := { enabled := false }
        gemini_agent := { enabled := true } }
      { task_description := "t" } "cid-1"
      = HttpResult.error 500
          "Collaboration initiation error: 503: Both agents must be enabled. Jules: False, Gemini: True" :=
  rfl

/-- C2: the claim says POST /jules/collaborate with cross-agent mode
disabled, and gemini endpoints behind the configuration gate with the
gemini agent disabled, return HTTP 503.  In both handlers the
HTTPException(503) raised inside the `try` block is caught by the blanket
`except Exception` and re-raised as a 500, so the observed status at
these failing inputs is 500 (the disabled component is still named
inside the nested detail text). -/
theorem c2_disabled_gates_return_500 :
    request_collaboration
        { cross_agent := { enabled := false }
          jules_agent := { enabled := true }
          gemini_agent := { enabled := true } } "t" "analysis_and_implementation"
      = HttpResult.error 500 "Collaboration error: 503: Cross-agent collaboration not enabled"
    ∧ get_gemini_capabilities
        { cross_agent := { enabled := true }
          jules_agent := { enabled := true }
          gemini_agent := { enabled := false } }
      = HttpResult.error 500
          "Error getting capabilities: 500: Configuration error: 503: Gemini agent not enabled" :=
  ⟨rfl, rfl⟩

/-- C3: with cross-agent mode enabled, POST /jules/collaborate always
fails: evaluating `uuid.uuid4()` raises NameError because
jules_integration.py imports `uuid` only inside `process_jules_task`,
the blanket `except Exception` converts it to HTTP 500, and the
documented four-step workflow payload is never returned for any input. -/
theorem c3_jules_collaborate_name_error (config : Config)
    (hc : config.cross_agent.enabled = true)
    (task_description collaboration_type : String) :
    request_collaboration config task_description collaboration_type
      = HttpResult.error 500
          ("Collaboration error: name " ++ sqc ++ "uuid" ++ sqc ++ " is not defined")
    ∧ ∀ payload, request_collaboration config task_description collaboration_type
        ≠ HttpResult.ok payload := by
  have h : request_collaboration config task_description collaboration_type
      = HttpResult.error 500
          ("Collaboration error: name " ++ sqc ++ "uuid" ++ sqc ++ " is not defined") := by
    simp [request_collaboration, pyTryWrap, runEndpoint, hc, pyStrExn]
    rfl
  refine ⟨h, fun payload hcontra => ?_⟩
  rw [h] at hcontra
  exact HttpResult.noConfusion hcontra

/-- C3 witness: the statement of `c3_jules_collaborate_name_error` made
concrete at an all-enabled configuration. -/
theorem c3_jules_collaborate_name_error_witness :
    request_collaboration
        { cross_agent := { enabled := true }
          jules_agent := { enabled := true }
          gemini_agent := { enabled := true } } "t" "analysis_and_implementation"
      = HttpResult.error 500
          ("Collaboration error: name " ++ sqc ++ "uuid" ++ sqc ++ " is not defined")
    ∧ ∀ payload, request_collaboration
        { cross_agent := { enabled := true }
          jules_agent := { enabled := true }
          gemini_agent := { enabled := true } } "t" "analysis_and_implementation"
        ≠ HttpResult.ok payload :=
  c3_jules_collaborate_name_error _ rfl "t" "analysis_and_implementation"

/-- C4: any exception raised during any phase of the background pipeline
is caught at the pipeline's top level and only appended to the printed
log (first conjunct: whatever phase fails and with whatever exception,
the run returns the log printed so far plus the error line — it never
propagates the exception); and since the pipeline's result is discarded
and nothing is persisted, a client polling the status endpoint observes
exactly the same response no matter how (or whether) the pipeline failed
(second conjunct). -/
theorem c4_pipeline_swallows_failures :
    (∀ (collaboration_id : String)
       (phase1 : Except PyExn GeminiAnalysis)
       (phase2 : GeminiAnalysis → Except PyExn JulesImplementation)
       (phase3 : GeminiAnalysis → JulesImplementation → Except PyExn ValidationResults)
       (phase4 : GeminiAnalysis → JulesImplementation → ValidationResults →
         Except PyExn FinalResults)
       (log : List String) (e : PyExn),
       collaboration_workflow_body collaboration_id phase1 phase2 phase3 phase4 = (log, some e) →
       execute_collaboration_workflow_run collaboration_id phase1 phase2 phase3 phase4
         = log ++ [workflow_log_line collaboration_id ("Collaboration error: " ++ pyStrExn e)])
    ∧ (∀ (cid cid' : String)
         (p1 q1 : Except PyExn GeminiAnalysis)
         (p2 q2 : GeminiAnalysis → Except PyExn JulesImplementation)
         (p3 q3 : GeminiAnalysis → JulesImplementation → Except PyExn ValidationResults)
         (p4 q4 : GeminiAnalysis → JulesImplementation → ValidationResults →
           Except PyExn FinalResults)
         (queried_id : String),
         status_after_pipeline cid p1 p2 p3 p4 queried_id
           = status_after_pipeline cid' q1 q2 q3 q4 queried_id) := by
  constructor
  · intro collaboration_id phase1 phase2 phase3 phase4 log e h
    simp [execute_collaboration_workflow_run, h]
  · intro _ _ _ _ _ _ _ _ _ _ _
    rfl

/-- C4 witness: `c4_pipeline_swallows_failures` applied to a pipeline
whose first phase raises. -/
theorem c4_pipeline_swallows_failures_witness :
    execute_collaboration_workflow_run "job7"
        (Except.error (PyExn.nameError "boom"))
        (fun _ => Except.error (PyExn.nameError "boom"))
        (fun _ _ => Except.error (PyExn.nameError "boom"))
        (fun _ _ _ => Except.error (PyExn.nameError "boom"))
      = [workflow_log_line "job7" "Phase 1: Starting Gemini analysis..."]
        ++ [workflow_log_line "job7"
              ("Collaboration error: " ++ pyStrExn (PyExn.nameError "boom"))] :=
  c4_pipeline_swallows_failures.1 "job7"
    (Except.error (PyExn.nameError "boom"))
    (fun _ => Except.error (PyExn.nameError "boom"))
    (fun _ _ => Except.error (PyExn.nameError "boom"))
    (fun _ _ _ => Except.error (PyExn.nameError "boom"))
    [workflow_log_line "job7" "Phase 1: Starting Gemini analysis..."]
    (PyExn.nameError "boom") rfl

/-- C5: the implementation-phase result copies the analysis-phase
security considerations; the finalization phase has no simulated delay,
its summary's quality score equals the validation consensus overall
quality score, and its knowledge-transfer payload is extracted from the
analysis result's implementation guidance and the implementation
result's implementation details. -/
theorem c5_phase_data_flow (task_description : String) (github_repo_url : Option String)
    (collaboration_id : String) (gemini_analysis : GeminiAnalysis)
    (jules_implementation : JulesImplementation) (validation_results : ValidationResults) :
    (simulate_jules_implementation task_description gemini_analysis
        github_repo_url).implementation_details.security_implemented
      = gemini_analysis.task_analysis.security_considerations
    ∧ phase_sleep_seconds WorkflowPhase.finalization = 0
    ∧ (finalize_collaboration collaboration_id gemini_analysis jules_implementation
        validation_results).collaboration_summary.quality_score
      = validation_results.consensus.overall_quality_score
    ∧ (finalize_collaboration collaboration_id gemini_analysis jules_implementation
        validation_results).knowledge_transfer.gemini_insights
      = gemini_analysis.implementation_guidance
    ∧ (finalize_collaboration collaboration_id gemini_analysis jules_implementation
        validation_results).knowledge_transfer.jules_learnings
      = jules_implementation.implementation_details :=
  ⟨rfl, rfl, rfl, rfl, rfl⟩

/-- C6: two start-collaboration requests differing only in
`workflow_type` produce identical responses (given the same generated
identifier) and identical pipeline executions; moreover the pipeline
always runs the same four phases in the same fixed order, so
`workflow_type` has no effect on sequencing or on any response field
other than the generated identifier. -/
theorem c6_workflow_type_no_effect (config : Config)
    (collaboration_id task_description priority w w' : String)
    (github_repo_url : Option String) (specific_requirements : List String) :
    start_multi_agent_collaboration config
        { task_description, priority, workflow_type := w, github_repo_url,
          specific_requirements } collaboration_id
      = start_multi_agent_collaboration config
        { task_description, priority, workflow_type := w', github_repo_url,
          specific_requirements } collaboration_id
    ∧ execute_collaboration_workflow collaboration_id task_description w
        github_repo_url specific_requirements
      = execute_collaboration_workflow collaboration_id task_description w'
        github_repo_url specific_requirements
    ∧ execute_collaboration_workflow collaboration_id task_description w
        github_repo_url specific_requirements
      = [workflow_log_line collaboration_id "Phase 1: Starting Gemini analysis...",
         workflow_log_line collaboration_id "Phase 2: Starting Jules implementation...",
         workflow_log_line collaboration_id "Phase 3: Cross-validation...",
         workflow_log_line collaboration_id "Phase 4: Finalizing results...",
         workflow_log_line collaboration_id "Collaboration completed successfully!"] :=
  ⟨rfl, rfl, rfl⟩

/-- C7: for every identifier string, GET /multi-agent/status/{id} returns
HTTP 200 with the same fixed payload — completed phases, overall progress
90 percent — echoing the identifier back without checking it against any
store. -/
theorem c7_status_fixed_payload (collaboration_id : String) :
    get_collaboration_status collaboration_id
      = HttpResult.ok
          { collaboration_id := collaboration_id
            status := "completed"
            current_phase := "finalization"
            progress :=
              { gemini_analysis := "completed"
                jules_implementation := "completed"
                cross_validation := "completed"
                finalization := "in_progress"
                overall_progress := "90%" }
            estimated_completion := "1 minute remaining" } :=
  rfl

/-- C8: with cross-agent mode and both agents enabled, every
start-collaboration response carries exactly the freshly generated
identifier, that identifier is non-empty, and two calls that draw
distinct values from the (injective) identifier supply return distinct
identifiers, whatever their request bodies. -/
theorem c8_fresh_unique_identifier (config : Config)
    (hc : config.cross_agent.enabled = true)
    (hj : config.jules_agent.enabled = true)
    (hg : config.gemini_agent.enabled = true)
    (gen : Nat → String) (hinj : Function.Injective gen) (hne : ∀ k, gen k ≠ "")
    (n m : Nat) (hnm : n ≠ m) (r r' : CollaborationRequest) :
    response_collaboration_id (start_multi_agent_collaboration config r (gen n)) = some (gen n)
    ∧ gen n ≠ ""
    ∧ response_collaboration_id (start_multi_agent_collaboration config r (gen n))
        ≠ response_collaboration_id (start_multi_agent_collaboration config r' (gen m)) := by
  have hstart : ∀ (req : CollaborationRequest) (s : String),
      start_multi_agent_collaboration config req s
        = HttpResult.ok
            { collaboration_id := s
              status := "initiated"
              current_phase := "gemini_analysis"
              participants := ["gemini-coding-agent", "jules-agent"]
              progress := [("phase_1", "Starting Gemini analysis"), ("overall_progress", "5%")]
              estimated_completion := some "5-10 minutes" } := by
    intro req s
    simp [start_multi_agent_collaboration, start_collaboration_body, pyTryWrap, runEndpoint,
      hc, hj, hg]
  refine ⟨?_, hne n, ?_⟩
  · rw [hstart]
    rfl
  · rw [hstart, hstart]
    simp only [response_collaboration_id, ne_eq, Option.some.injEq]
    intro hgen
    exact hnm (hinj hgen)

/-- C8 witness: `c8_fresh_unique_identifier` at an all-enabled
configuration, the concrete identifier supply `sample_id_supply`, draws
0 and 1, and two concrete request bodies. -/
theorem c8_fresh_unique_identifier_witness :
    response_collaboration_id
        (start_multi_agent_collaboration
          { cross_agent := { enabled := true }
            jules_agent := { enabled := true }
            gemini_agent := { enabled := true } }
          { task_description := "build an endpoint" } (sample_id_supply 0))
      = some (sample_id_supply 0)
    ∧ sample_id_supply 0 ≠ ""
    ∧ response_collaboration_id
        (start_multi_agent_collaboration
          { cross_agent := { enabled := true }
            jules_agent := { enabled := true }
            gemini_agent := { enabled := true } }
          { task_description := "build an endpoint" } (sample_id_supply 0))
      ≠ response_collaboration_id
        (start_multi_agent_collaboration
          { cross_agent := { enabled := true }
            jules_agent := { enabled := true }
            gemini_agent := { enabled := true } }
          { task_description := "add tests" } (sample_id_supply 1)) :=
  c8_fresh_unique_identifier _ rfl rfl rfl sample_id_supply sample_id_supply_injective
    sample_id_supply_ne_empty 0 1 (by decide)
    { task_description := "build an endpoint" } { task_description := "add tests" }

/-- C9: with the gemini agent enabled, POST /gemini/analyze on a request
with analysis type "security" and non-empty code succeeds (HTTP 200),
its analysis text contains the word "security", and its suggestions list
has at least one element. -/
theorem c9_security_analysis (config : Config)
    (hg : config.gemini_agent.enabled = true)
    (request : GeminiAnalysisRequest)
    (htype : request.analysis_type = "security")
    (hcode : request.code ≠ "") :
    analyze_code_with_gemini config request
      = HttpResult.ok (gemini_analyze_response config request)
    ∧ strContains (gemini_analyze_response config request).analysis "security" = true
    ∧ 1 ≤ (gemini_analyze_response config request).suggestions.length := by
  refine ⟨?_, ?_, ?_⟩
  · simp [analyze_code_with_gemini, get_gemini_config, pyTryWrap, runEndpoint, hg]
  · show strContains
        ("Gemini analysis for " ++ request.analysis_type ++ ": The code shows " ++
          request.task ++
          ". Key findings include structure improvements and optimization opportunities.")
        "security" = true
    rw [htype]
    apply strContains_append_left
    apply strContains_append_left
    apply strContains_append_left
    decide
  · show 1 ≤ gemini_suggestions.length
    decide

/-- C9 witness: `c9_security_analysis` at a concrete enabled
configuration and a concrete security-analysis request. -/
theorem c9_security_analysis_witness :
    analyze_code_with_gemini
        { gemini_agent := { enabled := true } }
        { code := "x = 1", task := "an API endpoint", analysis_type := "security" }
      = HttpResult.ok
          (gemini_analyze_response
            { gemini_agent := { enabled := true } }
            { code := "x = 1", task := "an API endpoint", analysis_type := "security" })
    ∧ strContains
        (gemini_analyze_response
          { gemini_agent := { enabled := true } }
          { code := "x = 1", task := "an API endpoint", analysis_type := "security" }).analysis
        "security" = true
    ∧ 1 ≤ (gemini_analyze_response
          { gemini_agent := { enabled := true } }
          { code := "x = 1", task := "an API endpoint", analysis_type := "security" }).suggestions.length :=
  c9_security_analysis _ rfl _ rfl (by decide)

/-- C10: the capabilities endpoints are pure functions of the
configuration plus constants: calling either twice with the same
configuration gives identical payloads, and any two configurations that
agree on the fields the endpoints read (the three enabled flags for the
multi-agent summary, the gemini section for the gemini summary) produce
identical payloads. -/
theorem c10_capabilities_pure (cfg cfg' : Config)
    (hc : cfg.cross_agent.enabled = cfg'.cross_agent.enabled)
    (hj : cfg.jules_agent.enabled = cfg'.jules_agent.enabled)
    (hg : cfg.gemini_agent = cfg'.gemini_agent) :
    get_multi_agent_capabilities cfg = get_multi_agent_capabilities cfg
    ∧ get_gemini_capabilities cfg = get_gemini_capabilities cfg
    ∧ get_multi_agent_capabilities cfg = get_multi_agent_capabilities cfg'
    ∧ get_gemini_capabilities cfg = get_gemini_capabilities cfg' := by
  refine ⟨rfl, rfl, ?_, ?_⟩
  · simp only [get_multi_agent_capabilities, pyTryWrap, runEndpoint]
    rw [hc, hj, hg]
  · simp only [get_gemini_capabilities, get_gemini_config]
    rw [hg]

/-- C10 witness: `c10_capabilities_pure` at two concrete configurations
that differ only in a field neither capabilities payload reads. -/
theorem c10_capabilities_pure_witness :
    get_multi_agent_capabilities
        { cross_agent := { enabled := true }
          jules_agent := { enabled := true, multi_agent_mode := true }
          gemini_agent := { enabled := true } }
      = get_multi_agent_capabilities
        { cross_agent := { enabled := true }
          jules_agent := { enabled := true, multi_agent_mode := true }
          gemini_agent := { enabled := true } }
    ∧ get_gemini_capabilities
        { cross_agent := { enabled := true }
          jules_agent := { enabled := true, multi_agent_mode := true }
          gemini_agent := { enabled := true } }
      = get_gemini_capabilities
        { cross_agent := { enabled := true }
          jules_agent := { enabled := true, multi_agent_mode := true }
          gemini_agent := { enabled := true } }
    ∧ get_multi_agent_capabilities
        { cross_agent := { enabled := true }
          jules_agent := { enabled := true, multi_agent_mode := true }
          gemini_agent := { enabled := true } }
      = get_multi_agent_capabilities
        { cross_agent := { enabled := true }
          jules_agent := { enabled := true }
          gemini_agent := { enabled := true } }
    ∧ get_gemini_capabilities
        { cross_agent := { enabled := true }
          jules_agent := { enabled := true, multi_agent_mode := true }
          gemini_agent := { enabled := true } }
      = get_gemini_capabilities
        { cross_agent := { enabled := true }
          jules_agent := { enabled := true }
          gemini_agent := { enabled := true } } :=
  c10_capabilities_pure _ _ rfl rfl rfl
